import Mathlib

/-!
Verification of the tally-and-schedule logic layer of the Iftari Dibe
community page. The definitions below are shallow embeddings of the
event handlers in the single UI component (src/unnamed/part_001) and of
the pagination arithmetic; machine numbers are modelled as `Int`/`Nat`
(JS numbers here only ever hold small integers), fallible external
calls as `Option` inputs, and the per-device local vote record as an
`Option Bool`.
-/

/-- The slice of component state that `handleVote` touches for one event:
the event's two shared counters (`true_votes`, `false_votes` fields of an
`IftarEvent`) and this device's local record for the event
(`userVotes[id]`, absent = no vote cast from this device). -/
structure VoteState where
  true_votes : Int
  false_votes : Int
  record : Option Bool
deriving Repr, DecidableEq

/-- Embedding of `handleVote` (part_001 lines 255-285) restricted to one
event: if the prior record equals the clicked choice, decrement that
choice's counter and delete the record; if a different prior record
exists, decrement its counter, increment the clicked choice's counter
and record the new choice; otherwise increment the clicked choice's
counter and record it.  The Firestore `increment` deltas are applied
directly to the counters. -/
def handleVote (s : VoteState) (c : Bool) : VoteState :=
  match s.record with
  | some cv =>
      if cv = c then
        { true_votes := if c then s.true_votes - 1 else s.true_votes
          false_votes := if c then s.false_votes else s.false_votes - 1
          record := none }
      else
        { true_votes := if c then s.true_votes + 1 else s.true_votes - 1
          false_votes := if c then s.false_votes - 1 else s.false_votes + 1
          record := some c }
  | none =>
      { true_votes := if c then s.true_votes + 1 else s.true_votes
        false_votes := if c then s.false_votes else s.false_votes + 1
        record := some c }

/-- The record component of the fold of `handleVote` over a list of
choices, written independently of the counters: the last choice not
toggled off (toggling the recorded choice clears it). -/
def recordOf (cs : List Bool) : Option Bool :=
  cs.foldl (fun r c => if r = some c then none else some c) none

/-- Running a sequence of vote clicks from one device, oldest first. -/
def runVotes (s : VoteState) (cs : List Bool) : VoteState :=
  cs.foldl handleVote s

/-- Claim C1: a single `handleVote` call is determined by the device's
prior record: with no record it increments the chosen counter by 1 and
records the choice; with an equal record it decrements that counter by 1
and removes the record; with a differing record it decrements the prior
choice's counter, increments the new choice's counter, and records the
new choice. -/
theorem handleVote_spec (s : VoteState) (c : Bool) :
    (s.record = none →
      handleVote s c =
        ⟨s.true_votes + (if c then 1 else 0),
         s.false_votes + (if c then 0 else 1), some c⟩) ∧
    (s.record = some c →
      handleVote s c =
        ⟨s.true_votes - (if c then 1 else 0),
         s.false_votes - (if c then 0 else 1), none⟩) ∧
    (∀ p : Bool, s.record = some p → p ≠ c →
      handleVote s c =
        ⟨s.true_votes - (if p then 1 else 0) + (if c then 1 else 0),
         s.false_votes - (if p then 0 else 1) + (if c then 0 else 1),
         some c⟩) := by
  obtain ⟨t, f, r⟩ := s
  refine ⟨?_, ?_, ?_⟩
  · intro h; cases h; cases c <;> simp [handleVote]
  · intro h; cases h; cases c <;> simp [handleVote]
  · intro p h hne; cases h
    cases c <;> cases p <;> simp_all [handleVote]

/-- Closed instance of `handleVote_spec`: all three branches evaluated at
concrete states. -/
theorem handleVote_spec_witness :
    handleVote ⟨2, 1, none⟩ true = ⟨3, 1, some true⟩ ∧
    handleVote ⟨3, 1, some true⟩ true = ⟨2, 1, none⟩ ∧
    handleVote ⟨3, 1, some true⟩ false = ⟨2, 2, some false⟩ := by
  refine ⟨?_, ?_, ?_⟩
  · have h := (handleVote_spec ⟨2, 1, none⟩ true).1 rfl
    simpa using h
  · have h := (handleVote_spec ⟨3, 1, some true⟩ true).2.1 rfl
    simpa using h
  · have h := (handleVote_spec ⟨3, 1, some true⟩ false).2.2 true rfl (by decide)
    simpa using h

/-- The record after a vote click depends only on the record before it. -/
theorem handleVote_record (s : VoteState) (c : Bool) :
    (handleVote s c).record = if s.record = some c then none else some c := by
  obtain ⟨t, f, r⟩ := s
  cases r with
  | none => simp [handleVote]
  | some cv =>
      by_cases h : cv = c <;> simp [handleVote, h]

/-- The three states a single device can put one event into, relative to
counters `(t0, f0)` holding before the device's first click. -/
def deviceStates (t0 f0 : Int) (s : VoteState) : Prop :=
  s = ⟨t0, f0, none⟩ ∨ s = ⟨t0 + 1, f0, some true⟩ ∨
    s = ⟨t0, f0 + 1, some false⟩

theorem deviceStates_init (t0 f0 : Int) : deviceStates t0 f0 ⟨t0, f0, none⟩ :=
  Or.inl rfl

theorem deviceStates_step {t0 f0 : Int} {s : VoteState}
    (h : deviceStates t0 f0 s) (c : Bool) :
    deviceStates t0 f0 (handleVote s c) := by
  rcases h with h | h | h <;> subst h <;> cases c <;>
    simp [deviceStates, handleVote]

theorem deviceStates_run (t0 f0 : Int) (cs : List Bool) {s : VoteState}
    (h : deviceStates t0 f0 s) : deviceStates t0 f0 (runVotes s cs) := by
  induction cs generalizing s with
  | nil => exact h
  | cons c cs ih => exact ih (deviceStates_step h c)

theorem runVotes_record (s : VoteState) (cs : List Bool) :
    (runVotes s cs).record =
      cs.foldl (fun r c => if r = some c then none else some c) s.record := by
  induction cs generalizing s with
  | nil => rfl
  | cons c cs ih =>
      show (runVotes (handleVote s c) cs).record = _
      rw [ih, List.foldl_cons, handleVote_record]

/-- Claim C2: for any sequence of vote clicks from one device on one
event starting with no record, the device's net effect is +1 on exactly
the recorded counter or zero on both; each counter's delta stays in
{-1, 0, +1}; and the final record is the last choice not toggled off. -/
theorem singleDevice_net_effect (cs : List Bool) (t0 f0 : Int) :
    (runVotes ⟨t0, f0, none⟩ cs).record = recordOf cs ∧
    (((runVotes ⟨t0, f0, none⟩ cs).record = none ∧
        runVotes ⟨t0, f0, none⟩ cs = ⟨t0, f0, none⟩) ∨
      ((runVotes ⟨t0, f0, none⟩ cs).record = some true ∧
        runVotes ⟨t0, f0, none⟩ cs = ⟨t0 + 1, f0, some true⟩) ∨
      ((runVotes ⟨t0, f0, none⟩ cs).record = some false ∧
        runVotes ⟨t0, f0, none⟩ cs = ⟨t0, f0 + 1, some false⟩)) ∧
    ((runVotes ⟨t0, f0, none⟩ cs).true_votes - t0 = -1 ∨
      (runVotes ⟨t0, f0, none⟩ cs).true_votes - t0 = 0 ∨
      (runVotes ⟨t0, f0, none⟩ cs).true_votes - t0 = 1) ∧
    ((runVotes ⟨t0, f0, none⟩ cs).false_votes - f0 = -1 ∨
      (runVotes ⟨t0, f0, none⟩ cs).false_votes - f0 = 0 ∨
      (runVotes ⟨t0, f0, none⟩ cs).false_votes - f0 = 1) := by
  have hrec : (runVotes ⟨t0, f0, none⟩ cs).record = recordOf cs := by
    rw [runVotes_record]; rfl
  have hst := deviceStates_run t0 f0 cs (deviceStates_init t0 f0)
  refine ⟨hrec, ?_, ?_, ?_⟩
  · rcases hst with h | h | h <;> rw [h] <;> simp
  · rcases hst with h | h | h <;> rw [h] <;> simp
  · rcases hst with h | h | h <;> rw [h] <;> simp

/-- Claim C3 as stated is false at a concrete input: starting from
counters (2, 1) with no record, vote(true) then vote(false) leaves
`true_votes` at 2 (unchanged), not at 2 - 1 as the claim's first half
asserts. -/
theorem switch_claim_counterexample :
    (handleVote (handleVote ⟨2, 1, none⟩ true) false).true_votes = 2 ∧
    ¬ (handleVote (handleVote ⟨2, 1, none⟩ true) false).true_votes
        = 2 - 1 := by
  constructor <;> decide

/-- Claim C3 (amended): with no prior record, vote(true) followed by
vote(false) leaves `true_votes` unchanged and yields `false_votes + 1`
relative to before the first call (equivalently, `true_votes - 1` and
`false_votes + 1` relative to the state after the first call); and the
concrete end-to-end instance holds: from (2, 1) with no record for E,
applyVote(E, false) yields false_votes = 2 with record false, then
applyVote(E, true) yields (3, 1) with record true. -/
theorem switch_correctness (t0 f0 : Int) :
    handleVote (handleVote ⟨t0, f0, none⟩ true) false
      = ⟨t0, f0 + 1, some false⟩ ∧
    (handleVote (handleVote ⟨t0, f0, none⟩ true) false).true_votes
      = (handleVote ⟨t0, f0, none⟩ true).true_votes - 1 ∧
    (handleVote (handleVote ⟨t0, f0, none⟩ true) false).false_votes
      = (handleVote ⟨t0, f0, none⟩ true).false_votes + 1 ∧
    handleVote ⟨2, 1, none⟩ false = ⟨2, 2, some false⟩ ∧
    handleVote ⟨2, 2, some false⟩ true = ⟨3, 1, some true⟩ := by
  refine ⟨?_, ?_, ?_, by decide, by decide⟩ <;>
    simp [handleVote]

/-- Claim C4: from any state with no prior record for the event, voting
true twice returns both counters to their initial values and clears the
record. -/
theorem toggle_idempotence (t0 f0 : Int) :
    handleVote (handleVote ⟨t0, f0, none⟩ true) true = ⟨t0, f0, none⟩ := by
  simp [handleVote]

/-- One event's shared counters in the document store together with the
local records of every device that can act on the event (one entry per
device, `none` = that device has cast no vote). -/
structure SharedState where
  true_votes : Int
  false_votes : Int
  votes : Multiset (Option Bool)
deriving DecidableEq

/-- `handleVote` (part_001 lines 255-285) as executed by one of many
devices against the shared counters: `r` is the acting device's current
local record (an element of `s.votes`), and the device's entry is
replaced by its new record while the counters receive the same
`increment` deltas as in `handleVote`. -/
def multiVote (s : SharedState) (r : Option Bool) (c : Bool) : SharedState :=
  match r with
  | some cv =>
      if cv = c then
        { true_votes := if c then s.true_votes - 1 else s.true_votes
          false_votes := if c then s.false_votes else s.false_votes - 1
          votes := none ::ₘ s.votes.erase r }
      else
        { true_votes := if c then s.true_votes + 1 else s.true_votes - 1
          false_votes := if c then s.false_votes - 1 else s.false_votes + 1
          votes := some c ::ₘ s.votes.erase r }
  | none =>
      { true_votes := if c then s.true_votes + 1 else s.true_votes
        false_votes := if c then s.false_votes else s.false_votes + 1
        votes := some c ::ₘ s.votes.erase r }

/-- States reachable by the logic layer: an event is created with both
counters 0 (part_001 lines 219-224) and no device holding a record, and
every later change is a vote by some participating device. -/
inductive ReachableShared : SharedState → Prop
  | init (n : Nat) : ReachableShared ⟨0, 0, Multiset.replicate n none⟩
  | step {s : SharedState} (h : ReachableShared s) {r : Option Bool}
      (hr : r ∈ s.votes) (c : Bool) : ReachableShared (multiVote s r c)

/-- Counting invariant: each shared counter equals the number of devices
currently recording that choice. -/
def countsVotes (s : SharedState) : Prop :=
  s.true_votes = (s.votes.count (some true) : Int) ∧
    s.false_votes = (s.votes.count (some false) : Int)

theorem count_cons_erase (m : Multiset (Option Bool)) (r x a : Option Bool)
    (hr : r ∈ m) :
    (((x ::ₘ m.erase r).count a : Nat) : Int) =
      (m.count a : Int) - (if a = r then 1 else 0) +
        (if a = x then 1 else 0) := by
  have h1 : 1 ≤ m.count r := Multiset.one_le_count_iff_mem.mpr hr
  by_cases har : a = r
  · subst har
    rw [Multiset.count_cons, Multiset.count_erase_self]
    push_cast [Nat.cast_sub h1]
    by_cases hax : a = x <;> simp [hax]
  · rw [Multiset.count_cons, Multiset.count_erase_of_ne har]
    push_cast
    by_cases hax : a = x
    · subst hax; simp [har]
    · simp [hax, har]

theorem countsVotes_step {s : SharedState} (h : countsVotes s)
    {r : Option Bool} (hr : r ∈ s.votes) (c : Bool) :
    countsVotes (multiVote s r c) := by
  obtain ⟨t, f, m⟩ := s
  obtain ⟨ht, hf⟩ := h
  cases r with
  | none =>
      cases c <;>
        constructor <;>
          simp_all [multiVote, count_cons_erase m none _ _ hr]
  | some cv =>
      have hT := count_cons_erase m (some cv) none (some true) hr
      have hF := count_cons_erase m (some cv) none (some false) hr
      cases cv <;> cases c <;>
        constructor <;>
          simp_all [multiVote, count_cons_erase m _ _ _ hr]

theorem countsVotes_reachable {s : SharedState} (h : ReachableShared s) :
    countsVotes s := by
  induction h with
  | init n => constructor <;> simp [Multiset.count_replicate]
  | step h hr c ih => exact countsVotes_step ih hr c

/-- Claim C5: in every reachable state both shared counters are
non-negative, and no vote operation applied to a reachable state
decrements either counter below zero. -/
theorem counters_nonneg {s : SharedState} (h : ReachableShared s) :
    (0 ≤ s.true_votes ∧ 0 ≤ s.false_votes) ∧
    ∀ (r : Option Bool), r ∈ s.votes → ∀ (c : Bool),
      0 ≤ (multiVote s r c).true_votes ∧
        0 ≤ (multiVote s r c).false_votes := by
  have base : ∀ {u : SharedState}, countsVotes u →
      0 ≤ u.true_votes ∧ 0 ≤ u.false_votes := by
    intro u hu
    exact ⟨hu.1 ▸ Int.natCast_nonneg _, hu.2 ▸ Int.natCast_nonneg _⟩
  refine ⟨base (countsVotes_reachable h), ?_⟩
  intro r hr c
  exact base (countsVotes_reachable (ReachableShared.step h hr c))

/-- Closed instance of `counters_nonneg`: the state in which one of two
devices has voted true is reachable, has non-negative counters, and
keeps them non-negative under any next vote; evaluated for a toggle-off
by the device that voted. -/
theorem counters_nonneg_witness :
    0 ≤ (multiVote ⟨1, 0, {some true, none}⟩ (some true) true).true_votes ∧
      0 ≤ (multiVote ⟨1, 0, {some true, none}⟩ (some true) true).false_votes := by
  have h0 : ReachableShared ⟨0, 0, Multiset.replicate 2 none⟩ :=
    ReachableShared.init 2
  have hmem : (none : Option Bool) ∈ Multiset.replicate 2 (none : Option Bool) := by
    decide
  have h1 := ReachableShared.step h0 hmem true
  have hst : multiVote ⟨0, 0, Multiset.replicate 2 none⟩ none true
      = ⟨1, 0, {some true, none}⟩ := by
    decide
  rw [hst] at h1
  exact (counters_nonneg h1).2 (some true) (by decide) true

/-- A clock time of day, the parsed form of the service's "HH:mm"
strings (`timeStr.split(':').map(Number)` in part_001 line 171). -/
structure TimeOfDay where
  hours : Int
  minutes : Int
deriving Repr, DecidableEq

/-- Embedding of `parseTime` (part_001 lines 170-175): the instant, in
minutes from midnight of the base date (today), at which the given
clock time falls. -/
def parseTime (t : TimeOfDay) : Int :=
  t.hours * 60 + t.minutes

/-- One day's answer from the prayer-times service as consumed by
`fetchTimings`: the response `code`, the `Fajr` and `Maghrib` times and
the `readable` date label. -/
structure ApiDay where
  code : Int
  fajr : TimeOfDay
  maghrib : TimeOfDay
  readable : String
deriving Repr, DecidableEq

/-- The displayed information for one boundary (`TimingInfo` in
part_001 lines 19-23, with the time kept in parsed form). -/
structure TimingInfo where
  time : TimeOfDay
  date : String
  readableDate : String
deriving Repr, DecidableEq

/-- The displayed window state (`TimingsState`, part_001 lines 25-28);
`none` is the initial placeholder before the first successful load. -/
structure TimingsState where
  sahri : Option TimingInfo
  iftar : Option TimingInfo
deriving Repr, DecidableEq

/-- The sahri display values taken from one day's response
(part_001 lines 181-182). -/
def sahriInfoOf (d : ApiDay) : TimingInfo :=
  ⟨d.fajr, d.readable, d.readable⟩

/-- The iftar display values taken from one day's response
(part_001 lines 185-186). -/
def iftarInfoOf (d : ApiDay) : TimingInfo :=
  ⟨d.maghrib, d.readable, d.readable⟩

/-- Per-boundary selection (the ternaries at part_001 lines 180-186):
tomorrow's value when `now` is strictly after today's boundary instant,
today's value otherwise. -/
def selectInfo (now boundary : Int) (todayInfo tomorrowInfo : TimingInfo) :
    TimingInfo :=
  if boundary < now then tomorrowInfo else todayInfo

/-- Embedding of one run of `fetchTimings` (part_001 lines 137-198):
`respToday`/`respTomorrow` are `none` when the corresponding fetch (or
its JSON decoding) throws, in which case the `catch` block leaves the
previous display untouched; with both responses present, the display is
replaced only when both report code 200, and then both boundaries are
set together from this run's data. -/
def fetchTimingsUpdate (prev : TimingsState) (now : Int)
    (respToday respTomorrow : Option ApiDay) : TimingsState :=
  match respToday, respTomorrow with
  | some dToday, some dTomorrow =>
      if dToday.code = 200 ∧ dTomorrow.code = 200 then
        let sahriToday := parseTime dToday.fajr
        let iftarToday := parseTime dToday.maghrib
        ⟨some (selectInfo now sahriToday
            (sahriInfoOf dToday) (sahriInfoOf dTomorrow)),
          some (selectInfo now iftarToday
            (iftarInfoOf dToday) (iftarInfoOf dTomorrow))⟩
      else prev
  | _, _ => prev

/-- Claim C6: on a successful fetch each of the two boundaries is
selected independently, taking tomorrow's value exactly when `now` is
strictly after today's boundary instant; when `now` equals today's
boundary instant exactly, today's value is selected. -/
theorem window_selection_rule (prev : TimingsState) (now : Int)
    (dToday dTomorrow : ApiDay)
    (hT : dToday.code = 200) (hTm : dTomorrow.code = 200) :
    ((fetchTimingsUpdate prev now (some dToday) (some dTomorrow)).sahri =
        some (if parseTime dToday.fajr < now then sahriInfoOf dTomorrow
          else sahriInfoOf dToday)) ∧
    ((fetchTimingsUpdate prev now (some dToday) (some dTomorrow)).iftar =
        some (if parseTime dToday.maghrib < now then iftarInfoOf dTomorrow
          else iftarInfoOf dToday)) ∧
    (now = parseTime dToday.fajr →
      (fetchTimingsUpdate prev now (some dToday) (some dTomorrow)).sahri =
        some (sahriInfoOf dToday)) ∧
    (now = parseTime dToday.maghrib →
      (fetchTimingsUpdate prev now (some dToday) (some dTomorrow)).iftar =
        some (iftarInfoOf dToday)) := by
  refine ⟨?_, ?_, ?_, ?_⟩
  · simp [fetchTimingsUpdate, hT, hTm, selectInfo]
  · simp [fetchTimingsUpdate, hT, hTm, selectInfo]
  · intro h; subst h; simp [fetchTimingsUpdate, hT, hTm, selectInfo]
  · intro h; subst h; simp [fetchTimingsUpdate, hT, hTm, selectInfo]

/-- Closed instance of `window_selection_rule`: with today's Fajr at
05:10, a query at exactly 05:10 keeps today's sahri value, and a query
one minute later switches to tomorrow's. -/
theorem window_selection_rule_witness :
    (fetchTimingsUpdate ⟨none, none⟩ (parseTime ⟨5, 10⟩)
        (some ⟨200, ⟨5, 10⟩, ⟨18, 20⟩, "01 Mar 2026"⟩)
        (some ⟨200, ⟨5, 9⟩, ⟨18, 21⟩, "02 Mar 2026"⟩)).sahri =
      some (sahriInfoOf ⟨200, ⟨5, 10⟩, ⟨18, 20⟩, "01 Mar 2026"⟩) ∧
    (fetchTimingsUpdate ⟨none, none⟩ (parseTime ⟨5, 10⟩ + 1)
        (some ⟨200, ⟨5, 10⟩, ⟨18, 20⟩, "01 Mar 2026"⟩)
        (some ⟨200, ⟨5, 9⟩, ⟨18, 21⟩, "02 Mar 2026"⟩)).sahri =
      some (sahriInfoOf ⟨200, ⟨5, 9⟩, ⟨18, 21⟩, "02 Mar 2026"⟩) := by
  constructor
  · exact (window_selection_rule ⟨none, none⟩ (parseTime ⟨5, 10⟩)
      ⟨200, ⟨5, 10⟩, ⟨18, 20⟩, "01 Mar 2026"⟩
      ⟨200, ⟨5, 9⟩, ⟨18, 21⟩, "02 Mar 2026"⟩ rfl rfl).2.2.1 rfl
  · have h := (window_selection_rule ⟨none, none⟩ (parseTime ⟨5, 10⟩ + 1)
      ⟨200, ⟨5, 10⟩, ⟨18, 20⟩, "01 Mar 2026"⟩
      ⟨200, ⟨5, 9⟩, ⟨18, 21⟩, "02 Mar 2026"⟩ rfl rfl).1
    rw [h]
    norm_num [parseTime]

/-- Claim C7: when either day's fetch throws or either day's response
code is not 200, the previous display is left entirely unchanged; and
every run either leaves the display unchanged or replaces both
boundaries together from this run's two responses, so stale and fresh
data are never mixed. -/
theorem fetch_failure_no_partial_update (prev : TimingsState) (now : Int)
    (respToday respTomorrow : Option ApiDay) :
    (respToday = none →
      fetchTimingsUpdate prev now respToday respTomorrow = prev) ∧
    (respTomorrow = none →
      fetchTimingsUpdate prev now respToday respTomorrow = prev) ∧
    (∀ dToday dTomorrow, respToday = some dToday →
      respTomorrow = some dTomorrow →
      ¬ (dToday.code = 200 ∧ dTomorrow.code = 200) →
      fetchTimingsUpdate prev now respToday respTomorrow = prev) ∧
    (fetchTimingsUpdate prev now respToday respTomorrow = prev ∨
      ∃ dToday dTomorrow, respToday = some dToday ∧
        respTomorrow = some dTomorrow ∧
        dToday.code = 200 ∧ dTomorrow.code = 200 ∧
        fetchTimingsUpdate prev now respToday respTomorrow =
          ⟨some (selectInfo now (parseTime dToday.fajr)
              (sahriInfoOf dToday) (sahriInfoOf dTomorrow)),
            some (selectInfo now (parseTime dToday.maghrib)
              (iftarInfoOf dToday) (iftarInfoOf dTomorrow))⟩) := by
  refine ⟨?_, ?_, ?_, ?_⟩
  · intro h; subst h; rfl
  · intro h; subst h; cases respToday <;> rfl
  · intro dToday dTomorrow hT hTm hcode
    subst hT; subst hTm
    simp [fetchTimingsUpdate, hcode]
  · cases respToday with
    | none => exact Or.inl rfl
    | some dToday =>
        cases respTomorrow with
        | none => exact Or.inl rfl
        | some dTomorrow =>
            by_cases hcode : dToday.code = 200 ∧ dTomorrow.code = 200
            · refine Or.inr ⟨dToday, dTomorrow, rfl, rfl, hcode.1, hcode.2, ?_⟩
              simp [fetchTimingsUpdate, hcode]
            · exact Or.inl (by simp [fetchTimingsUpdate, hcode])

/-- Closed instance of `fetch_failure_no_partial_update`: a failed
tomorrow-fetch and a non-200 today-response both leave a previously
displayed window unchanged. -/
theorem fetch_failure_no_partial_update_witness :
    fetchTimingsUpdate
        ⟨some ⟨⟨5, 0⟩, "28 Feb 2026", "28 Feb 2026"⟩, none⟩ 300
        (some ⟨200, ⟨5, 10⟩, ⟨18, 20⟩, "01 Mar 2026"⟩) none =
      ⟨some ⟨⟨5, 0⟩, "28 Feb 2026", "28 Feb 2026"⟩, none⟩ ∧
    fetchTimingsUpdate
        ⟨some ⟨⟨5, 0⟩, "28 Feb 2026", "28 Feb 2026"⟩, none⟩ 300
        (some ⟨500, ⟨5, 10⟩, ⟨18, 20⟩, "01 Mar 2026"⟩)
        (some ⟨200, ⟨5, 9⟩, ⟨18, 21⟩, "02 Mar 2026"⟩) =
      ⟨some ⟨⟨5, 0⟩, "28 Feb 2026", "28 Feb 2026"⟩, none⟩ := by
  constructor
  · exact (fetch_failure_no_partial_update
      ⟨some ⟨⟨5, 0⟩, "28 Feb 2026", "28 Feb 2026"⟩, none⟩ 300
      (some ⟨200, ⟨5, 10⟩, ⟨18, 20⟩, "01 Mar 2026"⟩) none).2.1 rfl
  · exact (fetch_failure_no_partial_update
      ⟨some ⟨⟨5, 0⟩, "28 Feb 2026", "28 Feb 2026"⟩, none⟩ 300
      (some ⟨500, ⟨5, 10⟩, ⟨18, 20⟩, "01 Mar 2026"⟩)
      (some ⟨200, ⟨5, 9⟩, ⟨18, 21⟩, "02 Mar 2026"⟩)).2.2.1 _ _ rfl rfl
      (by decide)

/-- The fixed page size (part_001 line 55). -/
def itemsPerPage : Nat := 6

/-- `Math.ceil(events.length / itemsPerPage)` (part_001 lines 111 and
354) on natural counts. -/
def totalPages (count : Nat) : Nat :=
  (count + itemsPerPage - 1) / itemsPerPage

/-- The clamping effect (part_001 lines 110-115): when the current page
exceeds the (positive) total page count, the current page is reset to
the total page count; otherwise it is left alone. -/
def clampCurrentPage (count page : Nat) : Nat :=
  if totalPages count < page ∧ 0 < totalPages count then totalPages count
  else page

/-- Claim C8: `totalPages` is the ceiling of count over the page size 6
(so 13 items give 3 pages), and for a non-empty list the clamp leaves
any current page at least 1 inside `[1, totalPages]`; deleting down to
6 items while on page 3 moves the current page to 1. -/
theorem pagination_clamp (count page : Nat) (hp : 1 ≤ page)
    (hc : 0 < count) :
    (1 ≤ clampCurrentPage count page ∧
      clampCurrentPage count page ≤ totalPages count) ∧
    (count ≤ itemsPerPage * totalPages count ∧
      itemsPerPage * totalPages count < count + itemsPerPage) ∧
    totalPages 13 = 3 ∧ clampCurrentPage 6 3 = 1 := by
  have htp : totalPages count = (count + 5) / 6 := by
    simp [totalPages, itemsPerPage]
  have h1 : 0 < totalPages count := by rw [htp]; omega
  refine ⟨?_, ?_, by decide, by decide⟩
  · by_cases h : totalPages count < page ∧ 0 < totalPages count
    · simp only [clampCurrentPage, if_pos h]
      omega
    · simp only [clampCurrentPage, if_neg h]
      omega
  · rw [htp]
    simp only [itemsPerPage]
    omega

/-- Closed instance of `pagination_clamp` at 13 items and at the
delete-down-to-6 scenario. -/
theorem pagination_clamp_witness :
    totalPages 13 = 3 ∧ clampCurrentPage 6 3 = 1 ∧
      1 ≤ clampCurrentPage 13 3 := by
  refine ⟨(pagination_clamp 13 3 ?h1 ?h2).2.2.1,
    (pagination_clamp 13 3 ?h1 ?h2).2.2.2,
    (pagination_clamp 13 3 ?h1 ?h2).1.1⟩
  case h1 => decide
  case h2 => decide

/-- The operations that set the current page: the Prev button
(part_001 line 612), the Next button (line 636), a numbered page button
(line 623) and the shrink-clamp effect (lines 110-115).  The first
three are rendered only when `totalPages > 1` (line 608), which is kept
as a guard. -/
inductive PageOp where
  | prevPage
  | nextPage
  | selectPage (i : Nat)
  | clampPage
deriving Repr, DecidableEq

/-- The new current page produced by one page-setting operation. -/
def applyPageOp (count : Nat) (op : PageOp) (page : Nat) : Nat :=
  match op with
  | .prevPage => if 1 < totalPages count then max (page - 1) 1 else page
  | .nextPage =>
      if 1 < totalPages count then min (page + 1) (totalPages count)
      else page
  | .selectPage i =>
      if 1 < totalPages count ∧ i < totalPages count then i + 1 else page
  | .clampPage => clampCurrentPage count page

/-- Claim C10: with an empty list (`totalPages 0 = 0`) the clamp does
not fire and the current page keeps its previous value; every
page-setting operation maps a page at least 1 to a page at least 1, so
`1 ≤ currentPage` is preserved; but `currentPage ≤ totalPages` fails
whenever the list is empty. -/
theorem empty_list_page_invariant :
    (∀ page : Nat, clampCurrentPage 0 page = page) ∧
    (∀ (count : Nat) (op : PageOp) (page : Nat), 1 ≤ page →
      1 ≤ applyPageOp count op page) ∧
    (∀ page : Nat, 1 ≤ page → ¬ (page ≤ totalPages 0)) := by
  have h0 : totalPages 0 = 0 := by decide
  refine ⟨?_, ?_, ?_⟩
  · intro page
    simp [clampCurrentPage, h0]
  · intro count op page hp
    cases op with
    | prevPage =>
        by_cases h : 1 < totalPages count <;> simp [applyPageOp, h]
        all_goals omega
    | nextPage =>
        by_cases h : 1 < totalPages count <;> simp [applyPageOp, h]
        all_goals omega
    | selectPage i =>
        by_cases h : 1 < totalPages count ∧ i < totalPages count
        · simp [applyPageOp, h]
        · simp [applyPageOp, h]
          omega
    | clampPage =>
        by_cases h : totalPages count < page ∧ 0 < totalPages count <;>
          simp [applyPageOp, clampCurrentPage, h]
        all_goals omega
  · intro page hp
    rw [h0]
    omega

/-- Closed instance of `empty_list_page_invariant`: the clamp leaves
page 7 alone on an empty list, the Next button keeps the page at least
1, and page 7 is out of range on an empty list. -/
theorem empty_list_page_invariant_witness :
    clampCurrentPage 0 7 = 7 ∧ 1 ≤ applyPageOp 13 .nextPage 1 ∧
      ¬ (7 ≤ totalPages 0) :=
  ⟨empty_list_page_invariant.1 7,
    empty_list_page_invariant.2.1 13 .nextPage 1 (by decide),
    empty_list_page_invariant.2.2 7 (by decide)⟩

/-- Embedding of `toggleAdmin` (part_001 lines 297-312): when not in
admin mode, a prompt is shown (`none` = the user cancelled); a correct
entry activates admin mode with a success message, a wrong entry shows
"Incorrect password!" and leaves admin mode off; when already in admin
mode the click deactivates it.  Returns the new admin flag and the
message shown, if any. -/
def toggleAdmin (isAdmin : Bool) (storedPassword : String)
    (pass : Option String) : Bool × Option String :=
  if isAdmin then (false, none)
  else
    match pass with
    | none => (false, none)
    | some p =>
        if p = storedPassword then (true, some "Admin Login Successful!")
        else (false, some "Incorrect password!")

/-- Embedding of `handleChangePassword` (part_001 lines 314-333): a
cancelled or empty new-password prompt is a silent no-op (`!newPass`);
otherwise, if the confirmation entry differs from the new password the
stored password is kept and "Passwords do not match!" is shown;
otherwise the stored password is replaced.  Returns the resulting
stored password and the message shown, if any. -/
def handleChangePassword (storedPassword : String)
    (newPass confirmPass : Option String) : String × Option String :=
  match newPass with
  | none => (storedPassword, none)
  | some n =>
      if n = "" then (storedPassword, none)
      else if some n ≠ confirmPass then
        (storedPassword, some "Passwords do not match!")
      else (n, some "Password changed successfully!")

/-- Claim C9: a login attempt with any password different from the
stored one reports "Incorrect password!" and leaves the admin flag
false; and any non-empty new password whose confirmation entry does not
match it (a differing string, or a cancelled confirmation) reports
"Passwords do not match!" and leaves the stored password unchanged.
(An empty or cancelled new-password prompt never reaches the
confirmation prompt, so every realizable pair of entries has a
non-empty new password.) -/
theorem admin_reject_no_state_change :
    (∀ stored p : String, p ≠ stored →
      toggleAdmin false stored (some p) =
        (false, some "Incorrect password!")) ∧
    (∀ (stored n : String) (c : Option String), n ≠ "" → some n ≠ c →
      handleChangePassword stored (some n) c =
        (stored, some "Passwords do not match!")) := by
  constructor
  · intro stored p h
    simp [toggleAdmin, h]
  · intro stored n c hn hc
    simp [handleChangePassword, hn, hc]

/-- Closed instance of `admin_reject_no_state_change`: a wrong login
entry and a mismatched password-change pair, both rejected without a
state change. -/
theorem admin_reject_no_state_change_witness :
    toggleAdmin false "admin123" (some "letmein") =
      (false, some "Incorrect password!") ∧
    handleChangePassword "admin123" (some "hunter2") (some "hunter3") =
      ("admin123", some "Passwords do not match!") :=
  ⟨admin_reject_no_state_change.1 "admin123" "letmein" (by decide),
    admin_reject_no_state_change.2 "admin123" "hunter2" (some "hunter3")
      (by decide) (by decide)⟩
